/-
Verification of the WhatsApp gateway pipeline (langgraph-whatsapp-agent).

Shallow embedding of the request pipeline implemented in
`src/langgraph_whatsapp/server.py`, `src/langgraph_whatsapp/channel.py` and
`src/langgraph_whatsapp/agent.py`:
  * Twilio signature middleware gating the webhook,
  * form-field extraction and media handling (`handle_message`),
  * media download / data-URI construction (`twilio_url_to_data_uri`),
  * agent invocation (`Agent.invoke`): message-content build, run payload,
    stream collection and the response-extraction fallback ladder,
  * thread-key derivation (`uuid.uuid5(uuid.NAMESPACE_DNS, id)`, i.e. SHA-1
    based name-hashing, embedded in full below).

Python dynamic values are modelled by the inductive `PyVal`; Python exceptions
by `PyErr`; the external HTTP world (Twilio media host, LangGraph runtime,
signature validator) is passed in as explicit parameters, so every definition
is executable.
-/
import Mathlib

set_option maxRecDepth 8192

/-- Dynamic Python value, restricted to the shapes that flow through the
gateway: None, booleans, integers, strings, lists and string-keyed dicts. -/
inductive PyVal where
  | none
  | bool (b : Bool)
  | int (n : Int)
  | str (s : String)
  | list (xs : List PyVal)
  | dict (kvs : List (String × PyVal))

/-- Python exceptions that arise in the embedded code paths. -/
inductive PyErr where
  | keyError
  | typeError
  | indexError
  | valueError
  | attributeError
  | runtimeError
  | httpError
  | connectionError
deriving DecidableEq, Repr

namespace PyVal

/-- Python truthiness (`bool(v)`) for the embedded value shapes. -/
def truthy : PyVal → Bool
  | .none => false
  | .bool b => b
  | .int n => n != 0
  | .str s => s != ""
  | .list xs => !xs.isEmpty
  | .dict kvs => !kvs.isEmpty

/-- Dictionary lookup (`d[k]` when present, first binding wins, as Python
dicts cannot carry duplicate keys). -/
def lookup (kvs : List (String × PyVal)) (k : String) : Option PyVal :=
  (kvs.find? (fun p => p.1 = k)).map (·.2)

/-- Membership test `k in d`. -/
def hasKey (kvs : List (String × PyVal)) (k : String) : Bool :=
  (lookup kvs k).isSome

/-- Python `==` against a string literal: only a `str` can compare equal to a
string (None/int/bool/list/dict compare unequal across types). -/
def eqStr : PyVal → String → Bool
  | .str s, t => s = t
  | _, _ => false

/-- Python `repr` of a string value (quote-escaping of control characters is
not modelled; the quote-choice rule is: double quotes when the string
contains a single quote but no double quote). -/
def reprStr (s : String) : String :=
  if s.toList.contains (Char.ofNat 39) && !(s.toList.contains (Char.ofNat 34)) then
    "\x22" ++ s ++ "\x22"
  else
    "\x27" ++ s ++ "\x27"

mutual

/-- Python `repr` for the embedded values. -/
def pyRepr : PyVal → String
  | .none => "None"
  | .bool b => if b then "True" else "False"
  | .int n => toString n
  | .str s => reprStr s
  | .list xs => "[" ++ pyReprList xs ++ "]"
  | .dict kvs => "\x7b" ++ pyReprDict kvs ++ "\x7d"

/-- Comma-separated reprs of list elements. -/
def pyReprList : List PyVal → String
  | [] => ""
  | [v] => pyRepr v
  | v :: rest => pyRepr v ++ ", " ++ pyReprList rest

/-- Comma-separated `key: value` reprs of dict entries. -/
def pyReprDict : List (String × PyVal) → String
  | [] => ""
  | [(k, v)] => reprStr k ++ ": " ++ pyRepr v
  | (k, v) :: rest => reprStr k ++ ": " ++ pyRepr v ++ ", " ++ pyReprDict rest

end

/-- Python `str(v)`: identity on strings, `repr` otherwise (lists and dicts
stringify via the reprs of their elements). -/
def pyStr (v : PyVal) : String :=
  match v with
  | .str s => s
  | v => pyRepr v

end PyVal

/-- A URL-form-encoded request body: ordered key/value pairs, string valued
(what `await request.form()` yields). -/
def Form := List (String × String)

/-- Model of `form_data.get(key, default)`. -/
def fget (form : Form) (k : String) (d : String) : String :=
  ((form.find? (fun p => p.1 = k)).map (·.2)).getD d

/-- Python `s.strip()`: drop whitespace from both ends (list-based so that
it reduces in the kernel). -/
def pyStrip (s : String) : String :=
  String.mk (((s.toList.dropWhile Char.isWhitespace).reverse.dropWhile
    Char.isWhitespace).reverse)

/-- Python `s.startswith(pre)` (list-based). -/
def strStartsWith (s pre : String) : Bool :=
  pre.toList.isPrefixOf s.toList

/-- Python-style suffix test (list-based). -/
def strEndsWith (s suf : String) : Bool :=
  suf.toList.reverse.isPrefixOf s.toList.reverse

/-- Model of Python `int(s)` on a string: strip whitespace, optional sign,
decimal digits; anything else raises ValueError (numeric-literal underscores
are not modelled). -/
def pyInt (s : String) : Except PyErr Int :=
  let l := (pyStrip s).toList
  let signDigits : Int × List Char :=
    match l with
    | '-' :: rest => (-1, rest)
    | '+' :: rest => (1, rest)
    | l => (1, l)
  if signDigits.2.length > 0 && signDigits.2.all Char.isDigit then
    .ok (signDigits.1 *
      Int.ofNat (signDigits.2.foldl (fun a c => 10 * a + (c.toNat - 48)) 0))
  else
    .error .valueError

/-- The standard base64 alphabet. -/
def b64Alphabet : List Char :=
  "ABCDEFGHIJKLMNOPQRSTUVWXYZabcdefghijklmnopqrstuvwxyz0123456789+/".toList

/-- Character for a 6-bit group. -/
def b64Char (n : Nat) : Char := b64Alphabet.getD n 'A'

/-- Model of `base64.b64encode(bytes).decode()`: 3-byte groups become 4
characters, with `=` padding for the final partial group. -/
def b64Encode : List Nat → String
  | [] => ""
  | [a] =>
      let a := a % 256
      String.mk [b64Char (a / 4), b64Char (a % 4 * 16)] ++ "=="
  | [a, b] =>
      let a := a % 256
      let b := b % 256
      String.mk [b64Char (a / 4), b64Char (a % 4 * 16 + b / 16), b64Char (b % 16 * 4)] ++ "="
  | a :: b :: c :: rest =>
      let a := a % 256
      let b := b % 256
      let c := c % 256
      String.mk [b64Char (a / 4), b64Char (a % 4 * 16 + b / 16),
                 b64Char (b % 16 * 4 + c / 64), b64Char (c % 64)] ++ b64Encode rest

/-- Partial table of the stdlib `mimetypes` extension map, restricted to the
extensions exercised in this development. -/
def mimeTable : List (String × String) :=
  [(".png", "image/png"), (".jpeg", "image/jpeg"), (".jpg", "image/jpeg"),
   (".gif", "image/gif"), (".pdf", "application/pdf"), (".txt", "text/plain")]

/-- Model of `mimetypes.guess_type(url)[0]`: a guess derived from the URL's
extension, `None` when the extension is unknown. -/
def guessType (url : String) : Option String :=
  (mimeTable.find? (fun p => strEndsWith url p.1)).map (·.2)

/-- Result of a successful `requests.get` against the media host.  The
`contentType` field is the Content-Type reported in the HTTP response
headers; note that `twilio_url_to_data_uri` never reads it. -/
structure HttpResp where
  status : Nat
  contentType : Option String
  content : List Nat
deriving DecidableEq, Repr

/-- Embedding of `channel.twilio_url_to_data_uri`: require configured
credentials, perform the authenticated GET (its outcome is the `resp`
parameter; `none` models a raised network/timeout error), `raise_for_status`,
then build `data:<mime>;base64,<payload>` where the mime type is the
URL-extension guess with literal fallback `image/jpeg`. -/
def twilio_url_to_data_uri (sid token url : String) (resp : Option HttpResp) :
    Except PyErr String :=
  if sid = "" || token = "" then .error .runtimeError
  else
    match resp with
    | Option.none => .error .connectionError
    | Option.some r =>
        if 400 ≤ r.status then .error .httpError
        else
          let mime := (guessType url).getD "image/jpeg"
          .ok ("data:" ++ mime ++ ";base64," ++ b64Encode r.content)

/-- Rotate a 32-bit word left by `n` bits. -/
def rotl32 (n x : Nat) : Nat :=
  Nat.lor ((x <<< n) % 2 ^ 32) ((x % 2 ^ 32) >>> (32 - n))

/-- Iterate a function `n` times. -/
def applyN (f : α → α) : Nat → α → α
  | 0, x => x
  | n + 1, x => applyN f n (f x)

/-- SHA-1 message padding: append `0x80`, zero bytes, and the 64-bit
big-endian bit length, reaching a multiple of 64 bytes. -/
def sha1Pad (msg : List Nat) : List Nat :=
  let len := msg.length
  let k := (64 - ((len + 9) % 64)) % 64
  let ml := 8 * len
  msg.map (· % 256) ++ [0x80] ++ List.replicate k 0 ++
    [(ml >>> 56) % 256, (ml >>> 48) % 256, (ml >>> 40) % 256, (ml >>> 32) % 256,
     (ml >>> 24) % 256, (ml >>> 16) % 256, (ml >>> 8) % 256, ml % 256]

/-- Group bytes into big-endian 32-bit words. -/
def toWords : List Nat → List Nat
  | a :: b :: c :: d :: rest =>
      ((a % 256) * 2 ^ 24 + (b % 256) * 2 ^ 16 + (c % 256) * 2 ^ 8 + d % 256) :: toWords rest
  | _ => []

/-- One step of the SHA-1 message-schedule extension, on the reversed
schedule (most recent word first): prepend
`rotl1 (w[i-3] xor w[i-8] xor w[i-14] xor w[i-16])`. -/
def extendStep (acc : List Nat) : List Nat :=
  rotl32 1 (Nat.xor (Nat.xor (acc.getD 2 0) (acc.getD 7 0))
            (Nat.xor (acc.getD 13 0) (acc.getD 15 0))) :: acc

/-- The SHA-1 round function for round `i`. -/
def sha1F (i b c d : Nat) : Nat :=
  if i < 20 then Nat.lor (Nat.land b c) (Nat.land (Nat.xor b 0xFFFFFFFF) d)
  else if i < 40 then Nat.xor (Nat.xor b c) d
  else if i < 60 then Nat.lor (Nat.lor (Nat.land b c) (Nat.land b d)) (Nat.land c d)
  else Nat.xor (Nat.xor b c) d

/-- The SHA-1 round constant for round `i`. -/
def sha1K (i : Nat) : Nat :=
  if i < 20 then 0x5A827999
  else if i < 40 then 0x6ED9EBA1
  else if i < 60 then 0x8F1BBCDC
  else 0xCA62C1D6

/-- The 80 SHA-1 compression rounds over the message schedule. -/
def sha1Rounds : Nat → List Nat → Nat × Nat × Nat × Nat × Nat → Nat × Nat × Nat × Nat × Nat
  | _, [], st => st
  | i, wi :: ws, (a, b, c, d, e) =>
      let temp := (rotl32 5 a + sha1F i b c d + e + sha1K i + wi) % 2 ^ 32
      sha1Rounds (i + 1) ws (temp, a, rotl32 30 b, c, d)

/-- Process one 64-byte chunk, updating the five 32-bit state words. -/
def processChunk (st : Nat × Nat × Nat × Nat × Nat) (chunk : List Nat) :
    Nat × Nat × Nat × Nat × Nat :=
  let ws := (applyN extendStep 64 (toWords chunk).reverse).reverse
  match st, sha1Rounds 0 ws st with
  | (h0, h1, h2, h3, h4), (a, b, c, d, e) =>
      ((h0 + a) % 2 ^ 32, (h1 + b) % 2 ^ 32, (h2 + c) % 2 ^ 32,
       (h3 + d) % 2 ^ 32, (h4 + e) % 2 ^ 32)

/-- Split a byte list into 64-byte chunks (structural recursion on a fuel
bound so that the definition reduces definitionally). -/
def chunks64Aux : Nat → List Nat → List (List Nat)
  | 0, _ => []
  | _, [] => []
  | fuel + 1, a :: rest => ((a :: rest).take 64) :: chunks64Aux fuel (rest.drop 63)

/-- Split a byte list into 64-byte chunks. -/
def chunks64 (l : List Nat) : List (List Nat) :=
  chunks64Aux l.length l

/-- Big-endian bytes of a 32-bit word. -/
def wordBytes (w : Nat) : List Nat :=
  [(w >>> 24) % 256, (w >>> 16) % 256, (w >>> 8) % 256, w % 256]

/-- SHA-1 of a byte string, as 20 bytes. -/
def sha1 (msg : List Nat) : List Nat :=
  match (chunks64 (sha1Pad msg)).foldl processChunk
      (0x67452301, 0xEFCDAB89, 0x98BADCFE, 0x10325476, 0xC3D2E1F0) with
  | (h0, h1, h2, h3, h4) =>
      wordBytes h0 ++ wordBytes h1 ++ wordBytes h2 ++ wordBytes h3 ++ wordBytes h4

/-- UTF-8 encoding of one character. -/
def charUtf8 (c : Char) : List Nat :=
  let n := c.toNat
  if n < 0x80 then [n]
  else if n < 0x800 then [0xC0 + n / 64, 0x80 + n % 64]
  else if n < 0x10000 then [0xE0 + n / 4096, 0x80 + (n / 64) % 64, 0x80 + n % 64]
  else [0xF0 + n / 262144, 0x80 + (n / 4096) % 64, 0x80 + (n / 64) % 64, 0x80 + n % 64]

/-- UTF-8 encoding of a string (Python `name.encode("utf-8")`). -/
def utf8Bytes (s : String) : List Nat :=
  s.toList.flatMap charUtf8

/-- The bytes of `uuid.NAMESPACE_DNS`
(6ba7b810-9dad-11d1-80b4-00c04fd430c8). -/
def NAMESPACE_DNS : List Nat :=
  [0x6b, 0xa7, 0xb8, 0x10, 0x9d, 0xad, 0x11, 0xd1,
   0x80, 0xb4, 0x00, 0xc0, 0x4f, 0xd4, 0x30, 0xc8]

/-- The 16 bytes of `uuid.uuid5(uuid.NAMESPACE_DNS, name)`: the first 16
bytes of `sha1(namespace ++ utf8(name))` with the version nibble forced to 5
and the variant bits forced to `10`. -/
def uuid5Bytes (name : String) : List Nat :=
  let h := (sha1 (NAMESPACE_DNS ++ utf8Bytes name)).take 16
  let h := h.set 6 (Nat.lor (Nat.land (h.getD 6 0) 0x0F) 0x50)
  h.set 8 (Nat.lor (Nat.land (h.getD 8 0) 0x3F) 0x80)

/-- Lowercase hex digit. -/
def hexDigit (n : Nat) : Char :=
  "0123456789abcdef".toList.getD n '0'

/-- Two-digit lowercase hex of a byte. -/
def byteHex (b : Nat) : String :=
  String.mk [hexDigit (b / 16 % 16), hexDigit (b % 16)]

/-- Lowercase hex of a byte string. -/
def hexOf (bs : List Nat) : String :=
  String.join (bs.map byteHex)

/-- Hyphenated 8-4-4-4-12 UUID string (Python `str(uuid_value)`). -/
def uuidFormat (bs : List Nat) : String :=
  hexOf (bs.take 4) ++ "-" ++ hexOf ((bs.drop 4).take 2) ++ "-" ++
    hexOf ((bs.drop 6).take 2) ++ "-" ++ hexOf ((bs.drop 8).take 2) ++ "-" ++
    hexOf (bs.drop 10)

/-- Embedding of the thread-key derivation on line 53 of `agent.py`:
`str(uuid.uuid5(uuid.NAMESPACE_DNS, id))`. -/
def threadKey (id : String) : String :=
  uuidFormat (uuid5Bytes id)


/-- Python `for x in v` iteration: lists yield elements, dicts yield their
keys, strings yield one-character strings; other values raise TypeError. -/
def pyIter : PyVal → Except PyErr (List PyVal)
  | .list xs => .ok xs
  | .dict kvs => .ok (kvs.map (fun p => .str p.1))
  | .str s => .ok (s.toList.map (fun c => .str (String.mk [c])))
  | _ => .error .typeError

/-- Build the message content list (`Agent.invoke`, lines 37-50): a text part
when `user_message` is truthy, then one image part per element of `images`
that is a dict carrying an `image_url` key. -/
def buildMessageContent (user_message : String) (images : Option PyVal) :
    Except PyErr (List PyVal) :=
  let base : List PyVal :=
    if user_message ≠ "" then
      [.dict [("type", .str "text"), ("text", .str user_message)]]
    else []
  let imagesTruthy := match images with
    | Option.none => false
    | Option.some v => v.truthy
  if imagesTruthy then
    match pyIter (images.getD .none) with
    | .error e => .error e
    | .ok xs =>
        .ok (base ++ xs.filterMap (fun img =>
          match img with
          | .dict kvs =>
              match PyVal.lookup kvs "image_url" with
              | Option.some u =>
                  Option.some (PyVal.dict [("type", .str "image_url"), ("image_url", u)])
              | Option.none => Option.none
          | _ => Option.none))
  else .ok base

/-- The run payload assembled by `Agent.invoke` (lines 52-66). -/
structure RequestPayload where
  thread_id : String
  assistant_id : String
  input : PyVal
  config : PyVal
  metadata : PyVal
  multitask_strategy : String
  if_not_exists : String
  stream_mode : String

/-- Build the run payload: thread id from `threadKey`, the canonical message
as the single user turn, passthrough config, and the fixed run-control
flags. -/
def buildRequestPayload (assistantId : String) (graphConfig : PyVal)
    (id : String) (content : List PyVal) : RequestPayload :=
  { thread_id := threadKey id
    assistant_id := assistantId
    input := .dict [("messages",
      .list [.dict [("role", .str "user"), ("content", .list content)]])]
    config := graphConfig
    metadata := .dict [("event", .str "api_call")]
    multitask_strategy := "interrupt"
    if_not_exists := "create"
    stream_mode := "values" }

/-- The `async for chunk in ...: final_response = chunk` loop: keep the last
observed chunk, starting from `None`. -/
def collectFinal (chunks : List PyVal) : Option PyVal :=
  chunks.foldl (fun _ c => Option.some c) Option.none

/-- A Python subscript key: either a string or an integer index. -/
inductive PyKey where
  | s (k : String)
  | i (n : Int)

/-- Python subscript `v[key]` semantics for the embedded value shapes:
string keys index dicts, integer keys index lists and strings (negative
indices count from the end); every failure is a KeyError, IndexError or
TypeError. -/
def pySubscript : PyVal → PyKey → Except PyErr PyVal
  | .dict kvs, .s k =>
      match PyVal.lookup kvs k with
      | Option.some v => .ok v
      | Option.none => .error .keyError
  | .dict _, .i _ => .error .keyError
  | .list xs, .i n =>
      let idx : Int := if n < 0 then (xs.length : Int) + n else n
      if 0 ≤ idx ∧ idx < (xs.length : Int) then .ok (xs.getD idx.toNat .none)
      else .error .indexError
  | .list _, .s _ => .error .typeError
  | .str t, .i n =>
      let idx : Int := if n < 0 then (t.length : Int) + n else n
      if 0 ≤ idx ∧ idx < (t.length : Int) then
        .ok (.str (String.mk [t.toList.getD idx.toNat ' ']))
      else .error .indexError
  | .str _, .s _ => .error .typeError
  | _, _ => .error .typeError

/-- The first extraction attempt (line 88):
`final_response.data["messages"][-1]["content"]`. -/
def tryOriginal (d : PyVal) : Except PyErr PyVal := do
  let m ← pySubscript d (.s "messages")
  let last ← pySubscript m (.i (-1))
  pySubscript last (.s "content")

/-- Whether an exception is caught by `except (KeyError, TypeError,
IndexError)` on line 90. -/
def caughtErr : PyErr → Bool
  | .keyError => true
  | .typeError => true
  | .indexError => true
  | _ => false

/-- Model of `str(final_response)` on the SDK StreamPart object (a named
tuple holding the chunk data; the event tag is not tracked here). -/
def strOfChunk (d : PyVal) : String :=
  "StreamPart(data=" ++ PyVal.pyRepr d ++ ")"

/-- The reverse scan over `messages` for the most recent assistant-authored
entry with truthy content (lines 117-123); the input list is already
reversed. -/
def scanAssistant : List PyVal → Option PyVal
  | [] => Option.none
  | m :: rest =>
      match m with
      | .dict kvs =>
          if PyVal.eqStr ((PyVal.lookup kvs "role").getD .none) "assistant" then
            let c := (PyVal.lookup kvs "content").getD .none
            if c.truthy then
              Option.some (match c with
                | .str s => PyVal.str s
                | v => .str (PyVal.pyStr v))
            else scanAssistant rest
          else scanAssistant rest
      | _ => scanAssistant rest

/-- The fallback ladder in the `except` branch of `Agent.invoke`
(lines 90-142), which never raises: string payloads verbatim; dicts probed
for `content`, `output`, `response`, `messages` (assistant scan then last
message), then the alternate keys `text`/`message`/`reply`/`answer`; last
resort `str(data)`; falsy data falls back to `str(final_response)`. -/
def fallbackLadder (d : PyVal) : PyVal :=
  if d.truthy then
    match d with
    | .str s => .str s
    | .dict kvs =>
        match PyVal.lookup kvs "content" with
        | Option.some v => v
        | Option.none =>
          let afterOutput : Option PyVal :=
            match PyVal.lookup kvs "output" with
            | Option.some (.str s) => Option.some (.str s)
            | Option.some (.dict okvs) => PyVal.lookup okvs "content"
            | _ => Option.none
          match afterOutput with
          | Option.some v => v
          | Option.none =>
            match PyVal.lookup kvs "response" with
            | Option.some (.str s) => .str s
            | _ =>
              let fromMessages : Option PyVal :=
                match PyVal.lookup kvs "messages" with
                | Option.some (.list msgs) =>
                    match scanAssistant msgs.reverse with
                    | Option.some v => Option.some v
                    | Option.none =>
                        match msgs.getLast? with
                        | Option.some (.dict lk) => PyVal.lookup lk "content"
                        | _ => Option.none
                | _ => Option.none
              match fromMessages with
              | Option.some v => v
              | Option.none =>
                match PyVal.lookup kvs "text" with
                | Option.some v => .str (PyVal.pyStr v)
                | Option.none =>
                  match PyVal.lookup kvs "message" with
                  | Option.some v => .str (PyVal.pyStr v)
                  | Option.none =>
                    match PyVal.lookup kvs "reply" with
                    | Option.some v => .str (PyVal.pyStr v)
                    | Option.none =>
                      match PyVal.lookup kvs "answer" with
                      | Option.some v => .str (PyVal.pyStr v)
                      | Option.none => .str (PyVal.pyStr d)
    | _ => .str (PyVal.pyStr d)
  else .str (strOfChunk d)

/-- The response-extraction step of `Agent.invoke` on the terminal chunk:
with no chunk at all (`final_response` is `None`) the very first attribute
access raises AttributeError, which the `except (KeyError, TypeError,
IndexError)` clause does not catch; otherwise the original format is tried
and any caught error enters the fallback ladder. -/
def extractResponse (final : Option PyVal) : Except PyErr PyVal :=
  match final with
  | Option.none => .error .attributeError
  | Option.some d =>
      match tryOriginal d with
      | .ok v => .ok v
      | .error e => if caughtErr e then .ok (fallbackLadder d) else .error e

/-- Embedding of `Agent.invoke` with the call binding already done: build the
content list, assemble the run payload, issue the single streaming run
request (its chunk-data sequence is the `stream` parameter), keep the last
chunk, and extract the response.  The second component records the run
requests issued. -/
def agentInvoke (assistantId : String) (graphConfig : PyVal)
    (stream : RequestPayload → List PyVal) (id user_message : String)
    (images : Option PyVal) : Except PyErr PyVal × List RequestPayload :=
  match buildMessageContent user_message images with
  | .error e => (.error e, [])
  | .ok content =>
      let payload := buildRequestPayload assistantId graphConfig id content
      (extractResponse (collectFinal (stream payload)), [payload])

/-- Python keyword-argument binding for `Agent.invoke(self, id, user_message,
images=None)` as reached through `self.agent.invoke(**input_data)`: a
keyword outside the parameter list, or a missing required parameter, raises
TypeError before the body runs.  A non-string `id` would make
`uuid.uuid5` raise TypeError (the channel only ever passes strings). -/
def callInvoke (assistantId : String) (graphConfig : PyVal)
    (stream : RequestPayload → List PyVal) (kwargs : List (String × PyVal)) :
    Except PyErr PyVal × List RequestPayload :=
  let names := kwargs.map (·.1)
  if !(names.all (fun n => n == "id" || n == "user_message" || n == "images")) then
    (.error .typeError, [])
  else if !(names.contains "id" && names.contains "user_message") then
    (.error .typeError, [])
  else
    match PyVal.lookup kwargs "id", PyVal.lookup kwargs "user_message" with
    | Option.some (.str id), Option.some (.str um) =>
        agentInvoke assistantId graphConfig stream id um (PyVal.lookup kwargs "images")
    | _, _ => (.error .typeError, [])

/-- The media dict assembled in `handle_message` (lines 113-117). -/
structure MediaDict where
  url : String
  data_uri : String
  content_type : String

/-- The media-extraction block of `handle_message` (lines 99-132): parse
`NumMedia` (Python `int`, so a malformed count raises ValueError), then
consider only the first descriptor `MediaUrl0`/`MediaContentType0`; only an
`image/...` content type is fetched, and a failed fetch is swallowed,
leaving `media = None`. -/
def extractMedia (sid token : String) (http : String → Option HttpResp)
    (form : Form) : Except PyErr (Option MediaDict) :=
  match pyInt (fget form "NumMedia" "0") with
  | .error e => .error e
  | .ok num_media =>
      if num_media > 0 then
        let media_url := fget form "MediaUrl0" ""
        let media_content_type := fget form "MediaContentType0" ""
        if media_url ≠ "" ∧ media_content_type ≠ "" then
          if strStartsWith media_content_type "image/" then
            match twilio_url_to_data_uri sid token media_url (http media_url) with
            | .ok d => .ok (Option.some ⟨media_url, d, media_content_type⟩)
            | .error _ => .ok Option.none
          else .ok Option.none
        else .ok Option.none
      else .ok Option.none

/-- The `input_data` kwargs dict built by `_process_message`
(lines 152-161): note the key is `image` (singular) holding a dict, while
`Agent.invoke` declares an `images` list parameter. -/
def inputData (sender content : String) (media : Option MediaDict) :
    List (String × PyVal) :=
  [("id", .str sender), ("user_message", .str content)] ++
    (match media with
     | Option.some m =>
         [("image", PyVal.dict [("image_url", PyVal.dict [("url", .str m.data_uri)])])]
     | Option.none => [])

/-- The TwiML reply envelope: either empty (`<Response/>`) or wrapping one
message element. -/
inductive TwiML where
  | emptyResponse
  | messageResponse (body : String)
deriving DecidableEq, Repr

/-- The body string the TwiML layer renders for the agent response
(non-string values are stringified by the rendering). -/
def msgBody (v : PyVal) : String := PyVal.pyStr v

/-- An error escaping the route handler: either a FastAPI HTTPException with
its status code, or an uncaught Python exception. -/
inductive GErr where
  | http (status : Nat)
  | py (e : PyErr)
deriving DecidableEq, Repr

/-- Configuration surface wired from the environment: Twilio credentials,
assistant id, and the passthrough graph config. -/
structure Ctx where
  sid : String
  token : String
  assistantId : String
  graphConfig : PyVal

/-- Embedding of `WhatsAppAgentTwilio.handle_message` (channel.py, lines
85-141): signature gate (403), sender/body extraction with strip, the media
block, the missing-sender gate (400), then `_process_message`, which calls
`self.agent.invoke(**input_data)`; the reply always wraps the agent response
in a message element.  `sigOk` is the outcome of the black-box
`RequestValidator` on the reconstructed forwarded URL, form fields and
signature header. -/
def handle_message (ctx : Ctx) (sigOk : Bool)
    (http : String → Option HttpResp) (stream : RequestPayload → List PyVal)
    (form : Form) : Except GErr TwiML × List RequestPayload :=
  if !sigOk then (.error (.http 403), [])
  else
    let sender := pyStrip (fget form "From" "")
    let content := pyStrip (fget form "Body" "")
    match extractMedia ctx.sid ctx.token http form with
    | .error e => (.error (.py e), [])
    | .ok media =>
        if sender = "" then (.error (.http 400), [])
        else
          match callInvoke ctx.assistantId ctx.graphConfig stream
              (inputData sender content media) with
          | (.error e, calls) => (.error (.py e), calls)
          | (.ok v, calls) => (.ok (.messageResponse (msgBody v)), calls)

/-- The observable outcome of one webhook request: HTTP status, the TwiML
envelope when one is returned, and the run requests issued to the remote
runtime. -/
structure GatewayResult where
  status : Nat
  twiml : Option TwiML
  calls : List RequestPayload

/-- The `whatsapp_reply_twilio` route handler (server.py, lines 55-64):
HTTPException statuses pass through, any other exception maps to 500. -/
def whatsapp_reply (r : Except GErr TwiML × List RequestPayload) : GatewayResult :=
  match r with
  | (.ok t, calls) => ⟨200, Option.some t, calls⟩
  | (.error (.http s), calls) => ⟨s, Option.none, calls⟩
  | (.error (.py _), calls) => ⟨500, Option.none, calls⟩

/-- The full request pipeline: `TwilioSignatureMiddleware.dispatch` returns
401 before the route handler whenever the signature check fails; otherwise
the route handler runs `handle_message` (whose own check, against the same
validator on the same data, agrees with the middleware). -/
def gateway (ctx : Ctx) (sigOk : Bool) (http : String → Option HttpResp)
    (stream : RequestPayload → List PyVal) (form : Form) : GatewayResult :=
  if !sigOk then ⟨401, Option.none, []⟩
  else whatsapp_reply (handle_message ctx sigOk http stream form)
/-- The canonical text part for a body string (shape from `Agent.invoke`,
lines 39-42). -/
def textPart (t : String) : PyVal :=
  .dict [("type", .str "text"), ("text", .str t)]

/-- Whether a form field is present at all (regardless of its value). -/
def formHas (form : Form) (k : String) : Bool :=
  (form.find? (fun p => p.1 = k)).isSome

/-- MIME resolution as the specification words it, for comparison with the
code: first the content type reported in the response headers, then the
URL-extension guess, then `image/jpeg`; a result not starting with `image/`
is forced to `image/jpeg`. -/
def specResolveMime (hdr : Option String) (url : String) : String :=
  let m := hdr.getD ((guessType url).getD "image/jpeg")
  if strStartsWith m "image/" then m else "image/jpeg"

/-- Whether a value is a Python string. -/
def isStr : PyVal → Bool
  | .str _ => true
  | _ => false

/-- Count the image parts in a content-part list. -/
def countImagePartsList (parts : List PyVal) : Nat :=
  parts.countP (fun part =>
    match part with
    | .dict pk => PyVal.eqStr ((PyVal.lookup pk "type").getD .none) "image_url"
    | _ => false)

/-- Count the image parts carried by a run payload (across the messages of
its input turn). -/
def imagePartCount (p : RequestPayload) : Nat :=
  match p.input with
  | .dict kvs =>
      match PyVal.lookup kvs "messages" with
      | Option.some (.list msgs) =>
          (msgs.map (fun m =>
            match m with
            | .dict mk =>
                match PyVal.lookup mk "content" with
                | Option.some (.list parts) => countImagePartsList parts
                | _ => 0
            | _ => 0)).sum
      | _ => 0
  | _ => 0

/-- Big-endian base-256 value of a byte list. -/
def fromBytesR : List Nat → Nat
  | [] => 0
  | b :: t => b * 256 ^ t.length + fromBytesR t

/-- The 128-bit numeric value of a thread key's underlying UUID bytes. -/
def keyFin (s : String) : Fin (2 ^ 128) :=
  ⟨fromBytesR (uuid5Bytes s) % 2 ^ 128, Nat.mod_lt _ (by norm_num)⟩

/-- A demo configuration with non-empty Twilio credentials. -/
def ctxDemo : Ctx := ⟨"AC123", "token", "agent", .dict []⟩

/-- A demo runtime stream that yields one string chunk. -/
def streamDemo : RequestPayload → List PyVal := fun _ => [.str "ok"]

/-- A demo media host that is unreachable. -/
def httpDemo : String → Option HttpResp := fun _ => Option.none

/-- A demo media host that serves four bytes with an image/png header. -/
def httpOkDemo : String → Option HttpResp :=
  fun _ => Option.some ⟨200, Option.some "image/png", [137, 80, 78, 71]⟩

/-- A delivery-receipt callback: `MessageStatus` and `SmsSid` both present. -/
def formStatusCB : Form :=
  [("From", "whatsapp:+15551234567"), ("MessageStatus", "delivered"),
   ("SmsSid", "SM123")]

/-- A callback carrying one image/png attachment. -/
def formImgDemo : Form :=
  [("From", "whatsapp:+15551234567"), ("Body", "look"), ("NumMedia", "1"),
   ("MediaUrl0", "https://api.twilio.com/media/ME1"),
   ("MediaContentType0", "image/png")]

/- Validation of the uuid5 embedding against the documented value
`uuid.uuid5(uuid.NAMESPACE_DNS, "python.org")`. -/
example : threadKey "python.org" = "886313e1-3b8a-5372-9b90-0c9aee199e5d" := by rfl

example : hexOf (sha1 []) = "da39a3ee5e6b4b0d3255bfef95601890afd80709" := by rfl

example : hexOf (sha1 [0x61, 0x62, 0x63]) = "a9993e364706816aba3e25717850c26c9cd0d89d" := by rfl

/-- Every byte emitted for one SHA-1 state word is below 256. -/
lemma wordBytes_lt {b : Nat} {w : Nat} (hb : b ∈ wordBytes w) : b < 256 := by
  simp [wordBytes] at hb
  rcases hb with h | h | h | h <;> subst h <;> exact Nat.mod_lt _ (by norm_num)

/-- A SHA-1 digest has 20 bytes. -/
lemma sha1_length (msg : List Nat) : (sha1 msg).length = 20 := by
  unfold sha1
  rcases (chunks64 (sha1Pad msg)).foldl processChunk
      (0x67452301, 0xEFCDAB89, 0x98BADCFE, 0x10325476, 0xC3D2E1F0) with
    ⟨h0, h1, h2, h3, h4⟩
  simp [wordBytes]

/-- Every byte of a SHA-1 digest is below 256. -/
lemma sha1_lt (msg : List Nat) : ∀ b ∈ sha1 msg, b < 256 := by
  unfold sha1
  rcases (chunks64 (sha1Pad msg)).foldl processChunk
      (0x67452301, 0xEFCDAB89, 0x98BADCFE, 0x10325476, 0xC3D2E1F0) with
    ⟨h0, h1, h2, h3, h4⟩
  intro b hb
  simp only [List.mem_append] at hb
  rcases hb with ((((h | h) | h) | h) | h) <;> exact wordBytes_lt h

/-- Bitwise or of two bytes is a byte. -/
lemma lor_lt_256 {a b : Nat} (ha : a < 256) (hb : b < 256) : Nat.lor a b < 256 :=
  Nat.bitwise_lt (n := 8) ha hb

/-- A uuid5 byte string has 16 bytes. -/
lemma uuid5Bytes_length (s : String) : (uuid5Bytes s).length = 16 := by
  simp [uuid5Bytes, List.length_set, List.length_take, sha1_length]

/-- Every byte of a uuid5 byte string is below 256. -/
lemma uuid5Bytes_lt (s : String) : ∀ b ∈ uuid5Bytes s, b < 256 := by
  intro b hb
  unfold uuid5Bytes at hb
  rcases List.mem_or_eq_of_mem_set hb with hb | hb
  · rcases List.mem_or_eq_of_mem_set hb with hb | hb
    · exact sha1_lt _ _ (List.mem_of_mem_take hb)
    · subst hb
      exact lor_lt_256 (Nat.lt_of_le_of_lt Nat.and_le_right (by norm_num)) (by norm_num)
  · subst hb
    exact lor_lt_256 (Nat.lt_of_le_of_lt Nat.and_le_right (by norm_num)) (by norm_num)

/-- Base-256 value bound for byte lists. -/
lemma fromBytesR_lt : ∀ (l : List Nat), (∀ b ∈ l, b < 256) → fromBytesR l < 256 ^ l.length
  | [], _ => by simp [fromBytesR]
  | b :: t, h => by
      have hb : b < 256 := h b (by simp)
      have ht : fromBytesR t < 256 ^ t.length :=
        fromBytesR_lt t (fun x hx => h x (by simp [hx]))
      have h1 : b * 256 ^ t.length + fromBytesR t < (b + 1) * 256 ^ t.length := by
        have := Nat.add_lt_add_left ht (b * 256 ^ t.length)
        calc b * 256 ^ t.length + fromBytesR t
            < b * 256 ^ t.length + 256 ^ t.length := this
          _ = (b + 1) * 256 ^ t.length := by ring
      have h2 : (b + 1) * 256 ^ t.length ≤ 256 * 256 ^ t.length :=
        Nat.mul_le_mul_right _ hb
      simp only [fromBytesR, List.length_cons, pow_succ]
      calc b * 256 ^ t.length + fromBytesR t
          < (b + 1) * 256 ^ t.length := h1
        _ ≤ 256 * 256 ^ t.length := h2
        _ = 256 ^ t.length * 256 := by ring

/-- Base-256 encoding is injective on equal-length byte lists. -/
lemma fromBytesR_inj : ∀ (l1 l2 : List Nat), l1.length = l2.length →
    (∀ b ∈ l1, b < 256) → (∀ b ∈ l2, b < 256) →
    fromBytesR l1 = fromBytesR l2 → l1 = l2
  | [], [], _, _, _, _ => rfl
  | [], _ :: _, hlen, _, _, _ => by simp at hlen
  | _ :: _, [], hlen, _, _, _ => by simp at hlen
  | b1 :: t1, b2 :: t2, hlen, h1, h2, heq => by
      have hlt : t1.length = t2.length := by simpa using hlen
      have hb1 : b1 < 256 := h1 b1 (by simp)
      have hb2 : b2 < 256 := h2 b2 (by simp)
      have ht1 : fromBytesR t1 < 256 ^ t1.length :=
        fromBytesR_lt t1 (fun x hx => h1 x (by simp [hx]))
      have ht2 : fromBytesR t2 < 256 ^ t2.length :=
        fromBytesR_lt t2 (fun x hx => h2 x (by simp [hx]))
      simp only [fromBytesR, hlt] at heq
      have hK : (0 : Nat) < 256 ^ t2.length := Nat.pos_pow_of_pos _ (by norm_num)
      have hbb : b1 = b2 := by
        have e1 : (b1 * 256 ^ t2.length + fromBytesR t1) / 256 ^ t2.length = b1 := by
          rw [Nat.mul_comm b1, Nat.mul_add_div hK]
          rw [hlt] at ht1
          simp [Nat.div_eq_of_lt ht1]
        have e2 : (b2 * 256 ^ t2.length + fromBytesR t2) / 256 ^ t2.length = b2 := by
          rw [Nat.mul_comm b2, Nat.mul_add_div hK]
          simp [Nat.div_eq_of_lt ht2]
        rw [← e1, heq, e2]
      have htt : fromBytesR t1 = fromBytesR t2 := by
        subst hbb
        omega
      have := fromBytesR_inj t1 t2 hlt
        (fun x hx => h1 x (by simp [hx])) (fun x hx => h2 x (by simp [hx])) htt
      rw [hbb, this]

/-- Two distinct sender identities whose thread keys coincide exist: the key
has only 2^128 possible byte values while sender strings are unbounded. -/
lemma threadKey_collision : ∃ s1 s2 : String, s1 ≠ s2 ∧ threadKey s1 = threadKey s2 := by
  obtain ⟨m, n, hmn, heq⟩ :=
    Finite.exists_ne_map_eq_of_infinite
      (fun k : ℕ => keyFin (String.mk (List.replicate k 'a')))
  have hv := congrArg Fin.val heq
  simp only [keyFin] at hv
  refine ⟨String.mk (List.replicate m 'a'), String.mk (List.replicate n 'a'), ?_, ?_⟩
  · intro h
    apply hmn
    have := congrArg (fun s : String => s.data.length) h
    simpa using this
  · have hpow : (256 : Nat) ^ 16 = 2 ^ 128 := by norm_num
    have hb1 : fromBytesR (uuid5Bytes (String.mk (List.replicate m 'a'))) < 2 ^ 128 := by
      have := fromBytesR_lt _ (uuid5Bytes_lt (String.mk (List.replicate m 'a')))
      rwa [uuid5Bytes_length, hpow] at this
    have hb2 : fromBytesR (uuid5Bytes (String.mk (List.replicate n 'a'))) < 2 ^ 128 := by
      have := fromBytesR_lt _ (uuid5Bytes_lt (String.mk (List.replicate n 'a')))
      rwa [uuid5Bytes_length, hpow] at this
    rw [Nat.mod_eq_of_lt hb1, Nat.mod_eq_of_lt hb2] at hv
    have hbytes := fromBytesR_inj _ _
      (by rw [uuid5Bytes_length, uuid5Bytes_length])
      (uuid5Bytes_lt (String.mk (List.replicate m 'a')))
      (uuid5Bytes_lt (String.mk (List.replicate n 'a'))) hv
    unfold threadKey
    rw [hbytes]

lemma foldl_some_or (l : List PyVal) : ∀ init : Option PyVal,
    l.foldl (fun _ c => Option.some c) init = l.getLast?.or init := by
  induction l with
  | nil => intro init; simp
  | cons a t ih =>
      intro init
      rw [List.foldl_cons, ih (Option.some a)]
      cases t with
      | nil => simp
      | cons b t' =>
          rw [List.getLast?_cons_cons]
          rcases h : (b :: t').getLast? with _ | x
          · simp [List.getLast?_eq_none_iff] at h
          · simp

lemma collectFinal_eq_getLast (l : List PyVal) : collectFinal l = l.getLast? := by
  rw [collectFinal, foldl_some_or]
  simp

lemma pySubscript_caught {v : PyVal} {k : PyKey} {e : PyErr}
    (h : pySubscript v k = .error e) : caughtErr e = true := by
  cases v <;> cases k <;>
    simp only [pySubscript] at h <;>
    (repeat' split at h) <;>
    first
      | (injection h with h; subst h; rfl)
      | simp_all

lemma tryOriginal_caught {d : PyVal} {e : PyErr}
    (h : tryOriginal d = .error e) : caughtErr e = true := by
  unfold tryOriginal at h
  rcases h1 : pySubscript d (.s "messages") with e1 | m
  · rw [h1] at h
    simp only [Bind.bind, Except.bind] at h
    injection h with h
    subst h
    exact pySubscript_caught h1
  · rw [h1] at h
    simp only [Bind.bind, Except.bind] at h
    rcases h2 : pySubscript m (.i (-1)) with e2 | last
    · rw [h2] at h
      simp only [Bind.bind, Except.bind] at h
      injection h with h
      subst h
      exact pySubscript_caught h2
    · rw [h2] at h
      simp only [Bind.bind, Except.bind] at h
      exact pySubscript_caught h

/-- C4 (counterexample): with no observed chunk the extractor raises
AttributeError, and a chunk whose data is a dict with a non-string `content`
field is returned verbatim as a non-string — refuting both halves of the
claim that extraction always returns a string and never raises. -/
theorem C4_extractor_counterexample :
    extractResponse Option.none = .error PyErr.attributeError ∧
    extractResponse (Option.some (.dict [("content", .int 42)])) = .ok (.int 42) ∧
    isStr (.int 42) = false := by
  exact ⟨rfl, rfl, rfl⟩

/-- C4 (amended): whenever a terminal chunk with a data payload was
observed, the extraction step never raises (every error of the first
attempt is caught and the fallback ladder is total), though the produced
value need not be a string. -/
theorem C4_extractor_total_amended (d : PyVal) :
    (extractResponse (Option.some d)).isOk = true := by
  unfold extractResponse
  rcases h : tryOriginal d with e | v
  · simp [h, tryOriginal_caught h]
    rfl
  · simp [h]
    rfl

/-- C8: every run payload carries `multitask_strategy = interrupt`,
`if_not_exists = create`, `stream_mode = values` and the derived thread key,
and the stream-collection step returns exactly the last observed chunk. -/
theorem C8_run_request_semantics (assistantId : String) (graphConfig : PyVal)
    (id : String) (content : List PyVal) (chunks : List PyVal) :
    (buildRequestPayload assistantId graphConfig id content).multitask_strategy
        = "interrupt" ∧
    (buildRequestPayload assistantId graphConfig id content).if_not_exists
        = "create" ∧
    (buildRequestPayload assistantId graphConfig id content).stream_mode
        = "values" ∧
    (buildRequestPayload assistantId graphConfig id content).thread_id
        = threadKey id ∧
    collectFinal chunks = chunks.getLast? :=
  ⟨rfl, rfl, rfl, rfl, collectFinal_eq_getLast chunks⟩

/-- C1: when the Twilio signature check fails, the middleware answers 401
(a 401/403-class rejection) and no run request is ever issued to the remote
runtime. -/
theorem C1_invalid_signature_rejected (ctx : Ctx) (http : String → Option HttpResp)
    (stream : RequestPayload → List PyVal) (form : Form) :
    ((gateway ctx false http stream form).status = 401 ∨
      (gateway ctx false http stream form).status = 403) ∧
    (gateway ctx false http stream form).calls = [] :=
  ⟨Or.inl rfl, rfl⟩

/-- C3 (counterexample): with an empty text body and no images the
normalizer produces the empty content list, not the claimed single
empty-string text part. -/
theorem C3_empty_content_counterexample :
    buildMessageContent "" Option.none = .ok [] ∧
    (Except.ok [] : Except PyErr (List PyVal)) ≠ .ok [textPart ""] := by
  refine ⟨rfl, ?_⟩
  intro h
  simp [textPart] at h

/-- C3 (amended): a non-empty text body always contributes a text part to
any successfully built content list, and with empty text and no images the
content is the empty list (never null, but no degenerate text part is
substituted). -/
theorem C3_text_part_presence (um : String) (imgs : Option PyVal) :
    (um ≠ "" → ∀ l, buildMessageContent um imgs = .ok l → textPart um ∈ l) ∧
    buildMessageContent um Option.none =
      .ok (if um ≠ "" then [textPart um] else []) := by
  constructor
  · intro hne l hl
    unfold buildMessageContent at hl
    simp only [if_pos hne] at hl
    split at hl
    · split at hl
      · exact absurd hl (by simp)
      · injection hl with hl
        subst hl
        simp [textPart]
    · injection hl with hl
      subst hl
      simp [textPart]
  · unfold buildMessageContent
    split <;> simp [textPart]

/-- C3 (witness): the amended statement instantiated at a concrete body and
at the empty callback. -/
theorem C3_text_part_presence_witness :
    textPart "hi" ∈ [textPart "hi"] ∧
    buildMessageContent "" Option.none = .ok ([] : List PyVal) :=
  ⟨(C3_text_part_presence "hi" Option.none).1 (by decide) [textPart "hi"] rfl,
   (C3_text_part_presence "" Option.none).2⟩

/-- C5 (counterexample): for a URL ending in `.pdf` fetched with an
`image/png` response header, the code yields mime `application/pdf` — the
response header is ignored and the non-`image/` type is not forced to
`image/jpeg`, while the claimed priority ladder would yield `image/png`. -/
theorem C5_mime_counterexample :
    twilio_url_to_data_uri "AC123" "token" "https://api.twilio.com/doc.pdf"
        (Option.some ⟨200, Option.some "image/png", [1, 2, 3]⟩) =
      .ok "data:application/pdf;base64,AQID" ∧
    specResolveMime (Option.some "image/png") "https://api.twilio.com/doc.pdf"
        = "image/png" ∧
    "application/pdf" ≠ "image/png" ∧
    strStartsWith "application/pdf" "image/" = false := by
  exact ⟨rfl, rfl, by decide, by decide⟩

/-- C5 (amended): with configured credentials and a 2xx/3xx response, the
produced data URI's mime type is exactly the URL-extension guess with
literal fallback `image/jpeg` — independent of the response's Content-Type
header and without any forcing of non-image types. -/
theorem C5_mime_from_extension_only (sid token url : String) (r : HttpResp)
    (hs : sid ≠ "") (ht : token ≠ "") (hr : r.status < 400) :
    twilio_url_to_data_uri sid token url (Option.some r) =
      .ok ("data:" ++ ((guessType url).getD "image/jpeg") ++ ";base64," ++
        b64Encode r.content) := by
  unfold twilio_url_to_data_uri
  rw [if_neg (by simp [hs, ht])]
  dsimp only
  rw [if_neg (by omega)]

/-- C5 (witness): the amended statement evaluated on a concrete fetch. -/
theorem C5_mime_from_extension_only_witness :
    twilio_url_to_data_uri "AC999" "tkn" "https://api.twilio.com/pic.png"
        (Option.some ⟨200, Option.some "text/plain", [0]⟩) =
      .ok ("data:" ++ ((guessType "https://api.twilio.com/pic.png").getD "image/jpeg")
        ++ ";base64," ++ b64Encode [0]) :=
  C5_mime_from_extension_only "AC999" "tkn" "https://api.twilio.com/pic.png"
    ⟨200, Option.some "text/plain", [0]⟩ (by decide) (by decide) (by decide)

/-- C9 (counterexample): the thread-key derivation is not injective on all
sender identities — the key determines only 2^128 byte values (122 free
bits), so two distinct senders with equal keys exist by pigeonhole. -/
theorem C9_not_injective :
    ¬ (∀ s1 s2 : String, s1 ≠ s2 → threadKey s1 ≠ threadKey s2) := by
  intro h
  obtain ⟨s1, s2, hne, heq⟩ := threadKey_collision
  exact h s1 s2 hne heq

/-- C9 (amended): the derivation is a pure deterministic function of the
sender identity (equal senders always yield the identical key, the
namespace being a fixed constant), but it is not injective in the strict
sense: some pair of distinct senders shares a key, though finding one
requires a SHA-1 collision. -/
theorem C9_deterministic_not_injective :
    (∀ s1 s2 : String, s1 = s2 → threadKey s1 = threadKey s2) ∧
    (∃ s1 s2 : String, s1 ≠ s2 ∧ threadKey s1 = threadKey s2) :=
  ⟨fun _ _ h => congrArg threadKey h, threadKey_collision⟩

/-- C9 (witness): determinism instantiated at a concrete sender. -/
theorem C9_deterministic_witness :
    threadKey "whatsapp:+15551234567" = threadKey "whatsapp:+15551234567" :=
  C9_deterministic_not_injective.1 "whatsapp:+15551234567" "whatsapp:+15551234567" rfl

lemma buildMC_none (um : String) :
    buildMessageContent um Option.none = .ok (if um ≠ "" then [textPart um] else []) := by
  unfold buildMessageContent textPart
  dsimp only
  rw [if_neg (by simp)]

lemma extractMedia_ok {sid token : String} {http : String → Option HttpResp}
    {form : Form} {n : Int} (hnm : pyInt (fget form "NumMedia" "0") = .ok n) :
    ∃ m, extractMedia sid token http form = .ok m := by
  unfold extractMedia
  rw [hnm]
  dsimp only
  repeat' split
  all_goals exact ⟨_, rfl⟩

lemma extractMedia_le_zero {sid token : String} {http : String → Option HttpResp}
    {form : Form} {n : Int} (hnm : pyInt (fget form "NumMedia" "0") = .ok n)
    (hle : n ≤ 0) : extractMedia sid token http form = .ok Option.none := by
  unfold extractMedia
  rw [hnm]
  dsimp only
  rw [if_neg (by omega)]

lemma callInvoke_no_media (aid : String) (cfg : PyVal)
    (stream : RequestPayload → List PyVal) (sender content : String) :
    callInvoke aid cfg stream (inputData sender content Option.none) =
      (extractResponse (collectFinal (stream (buildRequestPayload aid cfg sender
          (if content ≠ "" then [textPart content] else [])))),
       [buildRequestPayload aid cfg sender
          (if content ≠ "" then [textPart content] else [])]) := by
  unfold callInvoke inputData agentInvoke
  simp only [List.append_nil, List.map_cons, List.map_nil]
  norm_num [PyVal.lookup, List.find?]
  rw [show decide ("id" = "user_message") = false from by decide,
      show decide ("id" = "images") = false from by decide,
      show decide ("user_message" = "images") = false from by decide]
  simp only [Option.map]
  rw [buildMC_none]
  by_cases hc : content = "" <;> simp [hc]

/-- C7: a callback whose stripped `From` is empty (with a well-formed
`NumMedia` count, as the data model requires) is rejected with HTTP 400 and
no run request is ever issued. -/
theorem C7_empty_sender_rejected (ctx : Ctx) (http : String → Option HttpResp)
    (stream : RequestPayload → List PyVal) (form : Form) (n : Int)
    (hfrom : pyStrip (fget form "From" "") = "")
    (hnm : pyInt (fget form "NumMedia" "0") = .ok n) :
    (gateway ctx true http stream form).status = 400 ∧
    (gateway ctx true http stream form).calls = [] := by
  obtain ⟨m, hm⟩ := @extractMedia_ok ctx.sid ctx.token http form n hnm
  unfold gateway
  rw [if_neg (by simp)]
  unfold handle_message
  rw [if_neg (by simp)]
  dsimp only
  rw [hm]
  dsimp only
  rw [if_pos hfrom]
  exact ⟨rfl, rfl⟩

/-- C7 (witness): the theorem applied to a concrete `From`-less callback. -/
theorem C7_empty_sender_rejected_witness :
    (gateway ctxDemo true httpDemo streamDemo [("Body", "hi")]).status = 400 ∧
    (gateway ctxDemo true httpDemo streamDemo [("Body", "hi")]).calls = [] :=
  C7_empty_sender_rejected ctxDemo httpDemo streamDemo [("Body", "hi")] 0
    (by rfl) (by rfl)

/-- C2 (counterexample): a callback carrying both `MessageStatus` and
`SmsSid` is not short-circuited: the agent is invoked and the reply is a
message envelope, not the empty acknowledgement envelope. -/
theorem C2_status_callback_counterexample :
    (gateway ctxDemo true httpDemo streamDemo formStatusCB).calls ≠ [] ∧
    (gateway ctxDemo true httpDemo streamDemo formStatusCB).twiml ≠
      Option.some TwiML.emptyResponse ∧
    (gateway ctxDemo true httpDemo streamDemo formStatusCB).twiml =
      Option.some (TwiML.messageResponse "ok") := by
  refine ⟨?_, ?_, rfl⟩
  · have h : (gateway ctxDemo true httpDemo streamDemo formStatusCB).calls.length = 1 := rfl
    intro hc
    rw [hc] at h
    simp at h
  · have h : (gateway ctxDemo true httpDemo streamDemo formStatusCB).twiml =
        Option.some (TwiML.messageResponse "ok") := rfl
    rw [h]
    simp

/-- C2 (amended): the gateway has no delivery-receipt handling — a callback
with `MessageStatus` and `SmsSid` present is processed like any user
message: with a non-empty sender and no media count the agent is invoked
exactly once, and any envelope returned wraps a message element (never the
empty acknowledgement). -/
theorem C2_status_fields_do_not_short_circuit (ctx : Ctx)
    (http : String → Option HttpResp) (stream : RequestPayload → List PyVal)
    (form : Form) (n : Int)
    (_hms : formHas form "MessageStatus" = true)
    (_hsid : formHas form "SmsSid" = true)
    (hfrom : pyStrip (fget form "From" "") ≠ "")
    (hnm : pyInt (fget form "NumMedia" "0") = .ok n) (hle : n ≤ 0) :
    (gateway ctx true http stream form).calls.length = 1 ∧
    (∀ env, (gateway ctx true http stream form).twiml = Option.some env →
      ∃ t, env = TwiML.messageResponse t) := by
  have hm := @extractMedia_le_zero ctx.sid ctx.token http form n hnm hle
  unfold gateway
  rw [if_neg (by simp)]
  unfold handle_message
  rw [if_neg (by simp)]
  dsimp only
  rw [hm]
  dsimp only
  rw [if_neg hfrom]
  rw [callInvoke_no_media]
  generalize extractResponse _ = res
  rcases res with e | v
  · exact ⟨rfl, fun env h => nomatch h⟩
  · refine ⟨rfl, fun env h => ?_⟩
    injection h with h
    exact ⟨_, h.symm⟩

/-- C2 (witness): the amended statement applied to a concrete delivery
receipt. -/
theorem C2_status_fields_witness :
    (gateway ctxDemo true httpDemo streamDemo formStatusCB).calls.length = 1 ∧
    (∀ env, (gateway ctxDemo true httpDemo streamDemo formStatusCB).twiml =
        Option.some env → ∃ t, env = TwiML.messageResponse t) :=
  C2_status_fields_do_not_short_circuit ctxDemo httpDemo streamDemo formStatusCB 0
    (by rfl) (by rfl) (by decide) (by rfl) (by decide)

lemma callInvoke_with_media (aid : String) (cfg : PyVal)
    (stream : RequestPayload → List PyVal) (s c : String) (m : MediaDict) :
    callInvoke aid cfg stream (inputData s c (Option.some m)) =
      (.error .typeError, []) := by
  unfold callInvoke inputData
  norm_num
  intro h
  exact absurd (h (by decide) (by decide)) (by decide)

lemma imagePartCount_build (aid : String) (cfg : PyVal) (id : String)
    (content : List PyVal) :
    imagePartCount (buildRequestPayload aid cfg id content) =
      countImagePartsList content := by
  unfold imagePartCount buildRequestPayload
  simp [PyVal.lookup]

/-- C6: the channel passes the fetched image under the keyword `image` (a
single dict) while `Agent.invoke` accepts `images` (a list); on a callback
with a successfully fetched `image/png` attachment the call raises
TypeError, the request ends in HTTP 500, and no run request carrying an
image part is ever issued. -/
theorem C6_image_kwarg_mismatch :
    (gateway ctxDemo true httpOkDemo streamDemo formImgDemo).status = 500 ∧
    (gateway ctxDemo true httpOkDemo streamDemo formImgDemo).calls = [] ∧
    callInvoke ctxDemo.assistantId ctxDemo.graphConfig streamDemo
      (inputData "whatsapp:+15551234567" "look"
        (Option.some ⟨"https://api.twilio.com/media/ME1",
          "data:image/jpeg;base64,iVBORw==", "image/png"⟩)) =
      (.error PyErr.typeError, []) :=
  ⟨rfl, rfl, rfl⟩

/-- C10: the gateway's outcome depends only on `From`, `Body`, `NumMedia`
and the first attachment descriptor — attachments beyond the first are
ignored without error — and every run request it issues carries at most one
image part. -/
theorem C10_first_attachment_only (ctx : Ctx) (sig : Bool)
    (http : String → Option HttpResp) (stream : RequestPayload → List PyVal)
    (form1 form2 : Form)
    (hFrom : fget form1 "From" "" = fget form2 "From" "")
    (hBody : fget form1 "Body" "" = fget form2 "Body" "")
    (hNum : fget form1 "NumMedia" "0" = fget form2 "NumMedia" "0")
    (hU0 : fget form1 "MediaUrl0" "" = fget form2 "MediaUrl0" "")
    (hC0 : fget form1 "MediaContentType0" "" = fget form2 "MediaContentType0" "") :
    gateway ctx sig http stream form1 = gateway ctx sig http stream form2 ∧
    ∀ p ∈ (gateway ctx sig http stream form1).calls, imagePartCount p ≤ 1 := by
  constructor
  · unfold gateway handle_message extractMedia
    rw [hFrom, hBody, hNum, hU0, hC0]
  · intro p hp
    unfold gateway at hp
    cases sig with
    | false =>
        rw [if_pos (by simp)] at hp
        simp at hp
    | true =>
        rw [if_neg (by simp)] at hp
        unfold handle_message at hp
        rw [if_neg (by simp)] at hp
        dsimp only at hp
        rcases hvm : extractMedia ctx.sid ctx.token http form1 with e | media
        · rw [hvm] at hp
          dsimp only at hp
          unfold whatsapp_reply at hp
          simp at hp
        · rw [hvm] at hp
          dsimp only at hp
          by_cases hsend : pyStrip (fget form1 "From" "") = ""
          · rw [if_pos hsend] at hp
            unfold whatsapp_reply at hp
            simp at hp
          · rw [if_neg hsend] at hp
            rcases media with _ | m
            · rw [callInvoke_no_media] at hp
              generalize extractResponse _ = res at hp
              rcases res with e | v <;>
                · dsimp only at hp
                  unfold whatsapp_reply at hp
                  simp at hp
                  rw [hp, imagePartCount_build]
                  split
                  · decide
                  · rw [show ∀ t : String, countImagePartsList [textPart t] = 0
                        from fun _ => rfl]
                    decide
            · rw [callInvoke_with_media] at hp
              dsimp only at hp
              unfold whatsapp_reply at hp
              simp at hp

/-- C10 (witness): a callback with extra attachment descriptors yields the
identical outcome as one restricted to the first descriptor, and issues at
most one image part per run request. -/
theorem C10_first_attachment_only_witness :
    gateway ctxDemo true httpDemo streamDemo
        [("From", "whatsapp:+1555"), ("Body", "hi"), ("NumMedia", "2"),
         ("MediaUrl0", "https://x/a.png"), ("MediaContentType0", "image/png"),
         ("MediaUrl1", "https://x/b.png"), ("MediaContentType1", "image/png")] =
      gateway ctxDemo true httpDemo streamDemo
        [("From", "whatsapp:+1555"), ("Body", "hi"), ("NumMedia", "2"),
         ("MediaUrl0", "https://x/a.png"), ("MediaContentType0", "image/png")] ∧
    ∀ p ∈ (gateway ctxDemo true httpDemo streamDemo
        [("From", "whatsapp:+1555"), ("Body", "hi"), ("NumMedia", "2"),
         ("MediaUrl0", "https://x/a.png"), ("MediaContentType0", "image/png"),
         ("MediaUrl1", "https://x/b.png"), ("MediaContentType1", "image/png")]).calls,
      imagePartCount p ≤ 1 :=
  C10_first_attachment_only ctxDemo true httpDemo streamDemo _ _
    (by rfl) (by rfl) (by rfl) (by rfl) (by rfl)
